import Mathlib

/-!
Shallow embedding of the broadcast-server core (src/server.js, src/auth/authService.js,
src/database/database.js) for checking the natural-language specification.

Modelling conventions:
* A live websocket is identified by a `Nat` id (the JS code keys its `clients` map by
  the `ws` object itself; object identity becomes the numeric id).
* `readyState === WebSocket.OPEN` is the `isOpen` flag; whether `client.send` succeeds
  or throws is the `sendOk` flag of the connection.
* The SQLite tables become lists carried in `ServerState`; `CURRENT_TIMESTAMP` ordering
  of the `messages` table is list (insertion) order, so `ORDER BY timestamp DESC` is
  `List.reverse`.
* External, non-deterministic collaborators (JSON.parse, bcrypt, jwt.sign, token
  validation, whether a database call throws, the wall clock) are fields of an `Env`
  record supplied to each handler.
* JavaScript string falsiness (`undefined`, `null`, `""`) is `isFalsy` on
  `Option String`.
* Each handler returns the new state plus the ordered list of `ws.send` calls it made
  (destination id × outbound message). Console logging is not observable and is dropped.
-/

namespace BroadcastServer

/-- Per-connection record stored in the server's `clients` map (server.js:131). -/
structure ClientInfo where
  isAuthenticated : Bool
  userId : Option Nat
  username : Option String
  displayName : Option String
  deriving DecidableEq, Repr

/-- One live connection: map key (id), transport state and the stored info. -/
structure Conn where
  id : Nat
  isOpen : Bool
  sendOk : Bool
  info : ClientInfo
  deriving DecidableEq, Repr

/-- A row of the `users` table (database.js). -/
structure User where
  id : Nat
  username : String
  passwordHash : String
  displayName : String
  email : Option String
  isOnline : Bool
  deriving DecidableEq, Repr

/-- A row of the `messages` table; the timestamp is the position in the list. -/
structure DbMsg where
  id : Nat
  senderId : Nat
  content : String
  roomId : String
  isDeleted : Bool
  deriving DecidableEq, Repr

/-- Decoded inbound message, one constructor per `message.type` the switch in
`handleMessage` (server.js:208) distinguishes; `unknown` carries the type string. -/
inductive InMsg where
  | auth (token : Option String)
  | register (username password email displayName : Option String)
  | login (username password : Option String)
  | logout
  | getHistory (roomId : Option String) (lim off : Option Nat)
  | getOnlineUsers
  | broadcast (content : Option String)
  | text (content : Option String)
  | unknown (typeName : String)
  deriving DecidableEq, Repr

/-- Outbound wire messages built by server.js, one constructor per `type` value. -/
inductive OutMsg where
  | authRequired (content : String) (ts : Nat)
  | authSuccess (content : String) (ts : Nat) (userId : Nat)
      (username displayName token : String)
  | system (content : String) (ts : Nat) (userId : Nat) (username displayName : String)
  | broadcastMsg (content : String) (ts : Nat) (messageId : Nat) (userId : Nat)
      (username displayName : String)
  | confirmation (content : String) (ts : Nat) (messageId : Nat)
  | messageHistory (content : String) (ts : Nat) (msgs : List DbMsg) (roomId : String)
  | onlineUsersMsg (content : String) (ts : Nat) (users : List Nat)
  | errorMsg (content : String) (ts : Nat)
  deriving DecidableEq, Repr

/-- One `ws.send`: destination connection id and the payload. -/
abbrev Send := Nat × OutMsg

/-- The whole mutable server state: clients map plus the database tables. -/
structure ServerState where
  clients : List Conn
  users : List User
  nextUserId : Nat
  msgs : List DbMsg
  nextMsgId : Nat
  sessions : List (Nat × String)
  deriving DecidableEq, Repr

/-- Result of `authService.validateToken`. -/
structure TokenInfo where
  userId : Nat
  username : String
  displayName : String
  deriving DecidableEq, Repr

/-- External collaborators and non-determinism: JSON parsing, bcrypt hash/compare,
jwt signing, token validation, whether the best-effort database calls succeed, and
the server clock (`new Date()`). -/
structure Env where
  parse : String → Option InMsg
  hash : String → String
  check : String → String → Bool
  sign : Nat → String → String
  validate : String → Option TokenInfo
  authErrMsg : String
  statusOk : Bool
  statusErrMsg : String
  saveOk : Bool
  histOk : Bool
  onlineOk : Bool
  now : Nat

/-- JavaScript `String.prototype.trim`: strip leading and trailing whitespace
(executable over the character list). -/
def jsTrim (s : String) : String :=
  ⟨((s.data.dropWhile Char.isWhitespace).reverse.dropWhile Char.isWhitespace).reverse⟩

/-- JavaScript falsiness of an optional string field (`undefined`, `null`, `""`). -/
def isFalsy : Option String → Bool
  | none => true
  | some s => s == ""

/-- db.getUserByUsername: first row whose username matches. -/
def getUserByUsername (users : List User) (uname : String) : Option User :=
  users.find? fun u => u.username == uname

/-- this.clients.get(ws). -/
def getClient (st : ServerState) (ws : Nat) : Option ClientInfo :=
  (st.clients.find? fun c => c.id == ws).map (·.info)

/-- clientInfo && clientInfo.isAuthenticated for a given connection id. -/
def isAuthedAt (st : ServerState) (ws : Nat) : Bool :=
  match getClient st ws with
  | some ci => ci.isAuthenticated
  | none => false

/-- In-place mutation of one connection's stored `ClientInfo`. -/
def setClient (st : ServerState) (ws : Nat) (f : ClientInfo → ClientInfo) : ServerState :=
  { st with clients := st.clients.map fun c =>
      if c.id == ws then { c with info := f c.info } else c }

/-- db.updateUserOnlineStatus: set the `is_online` column of one user row. -/
def setUserOnline (st : ServerState) (uid : Nat) (b : Bool) : ServerState :=
  { st with users := st.users.map fun u =>
      if u.id == uid then { u with isOnline := b } else u }

/-- db.getRecentMessages: non-deleted rows of the room, newest first,
`LIMIT lim OFFSET off` (database.js:228). -/
def getRecentMessages (st : ServerState) (roomId : String) (lim off : Nat) : List DbMsg :=
  (((st.msgs.filter fun m => m.roomId == roomId && !m.isDeleted).reverse).drop off).take lim

/-- db.saveMessage: insert a row, returning the new state and `lastID`
(database.js:214). -/
def saveMessage (st : ServerState) (senderId : Nat) (content roomId : String) :
    ServerState × Nat :=
  ({ st with
      msgs := st.msgs ++
        [{ id := st.nextMsgId, senderId := senderId, content := content,
           roomId := roomId, isDeleted := false }],
      nextMsgId := st.nextMsgId + 1 },
   st.nextMsgId)

/-- db.getOnlineUsers: ids of the users whose `is_online` flag is set. -/
def getOnlineUsers (st : ServerState) : List Nat :=
  (st.users.filter (·.isOnline)).map (·.id)

/-- The connections a fan-out pass will attempt to send to: every entry of the
clients map other than the sender whose `readyState` is OPEN and whose stored info
says authenticated (server.js:618-623; `sender = none` is `broadcastToAll`). -/
def broadcastAttempts (clients : List Conn) (sender : Option Nat) : List Conn :=
  clients.filter fun c => sender != some c.id && c.isOpen && c.info.isAuthenticated

/-- broadcastToOthers (server.js:614): best-effort send to every open authenticated
connection except the sender; a throwing `send` is caught per recipient. Returns the
successful deliveries in map order and the logged `broadcastCount`. -/
def broadcastToOthers (clients : List Conn) (sender : Nat) (payload : OutMsg) :
    List Send × Nat :=
  let delivered := (broadcastAttempts clients (some sender)).filter (·.sendOk)
  (delivered.map fun c => (c.id, payload), delivered.length)

/-- broadcastToAll (server.js:643): same pass without excluding any sender. -/
def broadcastToAll (clients : List Conn) (payload : OutMsg) : List Send × Nat :=
  let delivered := (broadcastAttempts clients none).filter (·.sendOk)
  (delivered.map fun c => (c.id, payload), delivered.length)

/-- Result of `authService.registerUser`. -/
structure RegResult where
  userId : Nat
  username : String
  displayName : String
  token : String
  deriving DecidableEq, Repr

/-- authService.registerUser (authService.js:37): validation, duplicate check,
hash, insert, token, session row. -/
def registerUser (st : ServerState) (env : Env)
    (username password email displayName : Option String) :
    Except String (ServerState × RegResult) :=
  if isFalsy username || isFalsy password then
    .error "Username and password are required"
  else
    let uname := username.getD ""
    let pw := password.getD ""
    if uname.length < 3 then
      .error "Username must be at least 3 characters long"
    else if pw.length < 6 then
      .error "Password must be at least 6 characters long"
    else
      match getUserByUsername st.users uname with
      | some _ => .error "Username already exists"
      | none =>
        let dn := match displayName with
          | some d => if d == "" then uname else d
          | none => uname
        let mail := match email with
          | some e => if e == "" then none else some e
          | none => none
        let uid := st.nextUserId
        let token := env.sign uid uname
        let st1 := { st with
          users := st.users ++
            [{ id := uid, username := uname, passwordHash := env.hash pw,
               displayName := dn, email := mail, isOnline := false }],
          nextUserId := uid + 1,
          sessions := st.sessions ++ [(uid, token)] }
        .ok (st1, { userId := uid, username := uname, displayName := dn, token := token })

/-- Result of `authService.loginUser`. -/
structure LoginResult where
  userId : Nat
  username : String
  displayName : String
  email : Option String
  token : String
  deriving DecidableEq, Repr

/-- authService.loginUser (authService.js:89): unknown username and wrong password
both fail with the same message; success flips the online flag, mints a token and
records a session. A failing online-status update propagates as an exception. -/
def loginUser (st : ServerState) (env : Env) (username password : Option String) :
    Except String (ServerState × LoginResult) :=
  if isFalsy username || isFalsy password then
    .error "Username and password are required"
  else
    match getUserByUsername st.users (username.getD "") with
    | none => .error "Invalid username or password"
    | some user =>
      if !(env.check (password.getD "") user.passwordHash) then
        .error "Invalid username or password"
      else if !env.statusOk then
        .error env.statusErrMsg
      else
        let token := env.sign user.id user.username
        let st1 := setUserOnline st user.id true
        let st2 := { st1 with sessions := st1.sessions ++ [(user.id, token)] }
        .ok (st2, { userId := user.id, username := user.username,
                    displayName := user.displayName, email := user.email,
                    token := token })

/-- sendError (server.js:596): an `error` outbound message to one connection. -/
def sendError (ws : Nat) (env : Env) (msg : String) : Send :=
  (ws, .errorMsg msg env.now)

/-- sendMessageHistory (server.js:572): last 20 messages of room `main`, reversed to
oldest-first, sent to one connection; a read failure is caught and only logged. -/
def sendMessageHistory (st : ServerState) (env : Env) (ws : Nat) : List Send :=
  if env.histOk then
    [(ws, .messageHistory "Recent messages" env.now
        (getRecentMessages st "main" 20 0).reverse "main")]
  else []

/-- handleAuthentication (server.js:258): token validation, client-info update,
online-status update, welcome, history, join notice; any failure is caught and
reported as an `error` to the connection. -/
def handleAuthentication (st : ServerState) (env : Env) (ws : Nat)
    (token : Option String) : ServerState × List Send :=
  if isFalsy token then
    (st, [sendError ws env "Authentication token required"])
  else
    match env.validate (token.getD "") with
    | none => (st, [sendError ws env ("Authentication failed: " ++ env.authErrMsg)])
    | some ui =>
      let st1 := setClient st ws fun ci =>
        { ci with
          isAuthenticated := true, userId := some ui.userId,
          username := some ui.username, displayName := some ui.displayName }
      if env.statusOk then
        let st2 := setUserOnline st1 ui.userId true
        let welcome : Send :=
          (ws, .system ("Welcome " ++ ui.displayName ++ "! You are now authenticated.")
             env.now ui.userId ui.username ui.displayName)
        let joinMsg : OutMsg :=
          .system (ui.displayName ++ " has joined the chat") env.now
            ui.userId ui.username ui.displayName
        (st2, welcome :: sendMessageHistory st2 env ws ++
              (broadcastToOthers st2.clients ws joinMsg).1)
      else
        (st1, [sendError ws env ("Authentication failed: " ++ env.statusErrMsg)])

/-- handleRegistration (server.js:314): on success the `auth_success` response (with
the minted token) is sent first, then the client info is marked authenticated, the
online flag set, the recent history sent to the registering connection and a join
notice fanned out via `broadcastToOthers`. A failing online-status update is caught
by the handler's own catch, which sends a `Registration failed` error after the
success response. -/
def handleRegistration (st : ServerState) (env : Env) (ws : Nat)
    (username password email displayName : Option String) : ServerState × List Send :=
  match registerUser st env username password email displayName with
  | .error e => (st, [sendError ws env ("Registration failed: " ++ e)])
  | .ok (st1, res) =>
    let response : Send :=
      (ws, .authSuccess "Registration successful" env.now res.userId
         res.username res.displayName res.token)
    let st2 := setClient st1 ws fun ci =>
      { ci with
        isAuthenticated := true, userId := some res.userId,
        username := some res.username, displayName := some res.displayName }
    if env.statusOk then
      let st3 := setUserOnline st2 res.userId true
      let joinMsg : OutMsg :=
        .system (res.displayName ++ " has joined the chat") env.now
          res.userId res.username res.displayName
      (st3, response :: sendMessageHistory st3 env ws ++
            (broadcastToOthers st3.clients ws joinMsg).1)
    else
      (st2, [response, sendError ws env ("Registration failed: " ++ env.statusErrMsg)])

/-- handleLogin (server.js:374): like registration but against an existing user; no
server-level online-status call (loginUser already set the flag). -/
def handleLogin (st : ServerState) (env : Env) (ws : Nat)
    (username password : Option String) : ServerState × List Send :=
  match loginUser st env username password with
  | .error e => (st, [sendError ws env ("Login failed: " ++ e)])
  | .ok (st1, res) =>
    let response : Send :=
      (ws, .authSuccess "Login successful" env.now res.userId
         res.username res.displayName res.token)
    let st2 := setClient st1 ws fun ci =>
      { ci with
        isAuthenticated := true, userId := some res.userId,
        username := some res.username, displayName := some res.displayName }
    let joinMsg : OutMsg :=
      .system (res.displayName ++ " has joined the chat") env.now
        res.userId res.username res.displayName
    (st2, response :: sendMessageHistory st2 env ws ++
          (broadcastToOthers st2.clients ws joinMsg).1)

/-- handleLogout (server.js:431): for an authenticated connection, update the online
flag then fan out a leave notice; the stored client info (in particular
`isAuthenticated`) is not touched. The handler's catch only logs, so if the status
update throws nothing is sent at all. -/
def handleLogout (st : ServerState) (env : Env) (ws : Nat) : ServerState × List Send :=
  match getClient st ws with
  | some ci =>
    if ci.isAuthenticated then
      if env.statusOk then
        let st1 := setUserOnline st (ci.userId.getD 0) false
        let leaveMsg : OutMsg :=
          .system ((ci.displayName.getD "") ++ " has left the chat") env.now
            (ci.userId.getD 0) (ci.username.getD "") (ci.displayName.getD "")
        (st1, (broadcastToOthers st1.clients ws leaveMsg).1)
      else (st, [])
    else (st, [])
  | none => (st, [])

/-- handleGetHistory (server.js:464): read `getRecentMessages` with the request's
defaults and answer with the rows reversed to oldest-first; no authentication check. -/
def handleGetHistory (st : ServerState) (env : Env) (ws : Nat)
    (roomId : Option String) (lim off : Option Nat) : ServerState × List Send :=
  let r := roomId.getD "main"
  if env.histOk then
    (st, [(ws, .messageHistory "Message history retrieved" env.now
        (getRecentMessages st r (lim.getD 50) (off.getD 0)).reverse r)])
  else
    (st, [sendError ws env "Failed to retrieve message history"])

/-- handleGetOnlineUsers (server.js:493): answer with the online users; no
authentication check. -/
def handleGetOnlineUsers (st : ServerState) (env : Env) (ws : Nat) :
    ServerState × List Send :=
  if env.onlineOk then
    (st, [(ws, .onlineUsersMsg "Online users retrieved" env.now (getOnlineUsers st))])
  else
    (st, [sendError ws env "Failed to retrieve online users"])

/-- handleBroadcastMessage (server.js:517). The first line
`const messageText = message.content || messageText;` reads the `messageText` const
inside its own initializer, so a falsy `content` raises a ReferenceError that escapes
the handler (its try block only starts at the save): modelled as `.error ()`.
Otherwise: save, fan out to the others with the server timestamp and the sender's
identity, then confirm to the sender; a failing save is caught and reported. -/
def handleBroadcastMessage (st : ServerState) (env : Env) (ws : Nat) (ci : ClientInfo)
    (content : Option String) : Except Unit (ServerState × List Send) :=
  if isFalsy content then
    .error ()
  else
    let text := content.getD ""
    if env.saveOk then
      let (st1, mid) := saveMessage st (ci.userId.getD 0) text "main"
      let payload : OutMsg :=
        .broadcastMsg text env.now mid (ci.userId.getD 0)
          (ci.username.getD "") (ci.displayName.getD "")
      .ok (st1, (broadcastToOthers st1.clients ws payload).1 ++
            [(ws, .confirmation "Message sent successfully!" env.now mid)])
    else
      .ok (st, [sendError ws env "Failed to save message"])

/-- The `broadcast`/`text` arm of the switch (server.js:233-241): gate on
`clientInfo && clientInfo.isAuthenticated`, otherwise an error to the sender only. -/
def routeBroadcast (st : ServerState) (env : Env) (ws : Nat)
    (content : Option String) : Except Unit (ServerState × List Send) :=
  match getClient st ws with
  | some ci =>
    if ci.isAuthenticated then handleBroadcastMessage st env ws ci content
    else .ok (st, [sendError ws env "Authentication required to send messages"])
  | none => .ok (st, [sendError ws env "Authentication required to send messages"])

/-- The dispatch switch of handleMessage (server.js:208-245). Only the broadcast arm
can let an exception escape to the outer catch. -/
def route (st : ServerState) (env : Env) (ws : Nat) (message : InMsg) :
    Except Unit (ServerState × List Send) :=
  match message with
  | .auth token => .ok (handleAuthentication st env ws token)
  | .register u p e d => .ok (handleRegistration st env ws u p e d)
  | .login u p => .ok (handleLogin st env ws u p)
  | .logout => .ok (handleLogout st env ws)
  | .getHistory r l o => .ok (handleGetHistory st env ws r l o)
  | .getOnlineUsers => .ok (handleGetOnlineUsers st env ws)
  | .broadcast c => routeBroadcast st env ws c
  | .text c => routeBroadcast st env ws c
  | .unknown t => .ok (st, [sendError ws env ("Unknown message type: " ++ t)])

/-- handleMessage (server.js:185): trim the raw frame, silently drop it if empty,
fall back to a `text` command when JSON parsing fails, dispatch, and turn an escaped
exception into a generic error to the sender. -/
def handleMessage (st : ServerState) (env : Env) (ws : Nat) (raw : String) :
    ServerState × List Send :=
  let t := jsTrim raw
  if t == "" then (st, [])
  else
    let message := match env.parse t with
      | some m => m
      | none => InMsg.text (some t)
    match route st env ws message with
    | .ok r => r
    | .error _ => (st, [sendError ws env "Failed to process your message"])

/-- handleClose (server.js:669): for an authenticated connection, best-effort
online-status update (its own try/catch, so a failure does not skip the leave
notice), fan out the leave notice, then delete the map entry. -/
def handleClose (st : ServerState) (env : Env) (ws : Nat) : ServerState × List Send :=
  let step : ServerState × List Send :=
    match getClient st ws with
    | some ci =>
      if ci.isAuthenticated then
        let st1 := if env.statusOk then setUserOnline st (ci.userId.getD 0) false else st
        let leaveMsg : OutMsg :=
          .system ((ci.displayName.getD "") ++ " has left the chat") env.now
            (ci.userId.getD 0) (ci.username.getD "") (ci.displayName.getD "")
        (st1, (broadcastToOthers st1.clients ws leaveMsg).1)
      else (st, [])
    | none => (st, [])
  ({ step.1 with clients := step.1.clients.filter fun c => !(c.id == ws) }, step.2)

/-! Concrete fixtures used by the counterexamples and witnesses. -/

/-- A connection that has not authenticated. -/
def ciUnauth : ClientInfo :=
  { isAuthenticated := false, userId := none, username := none, displayName := none }

/-- An authenticated connection bound to user 7 / alice. -/
def ciAlice : ClientInfo :=
  { isAuthenticated := true, userId := some 7, username := some "alice",
    displayName := some "Alice" }

/-- An authenticated connection bound to user 8 / bob. -/
def ciBob : ClientInfo :=
  { isAuthenticated := true, userId := some 8, username := some "bob",
    displayName := some "Bob" }

/-- A benign environment: every collaborator call succeeds, bcrypt compare fails,
JSON parsing fails (plain-text frames), the clock reads 5. -/
def envA : Env :=
  { parse := fun _ => none, hash := id, check := fun _ _ => false,
    sign := fun _ u => u ++ "-token", validate := fun _ => none,
    authErrMsg := "Invalid token", statusOk := true,
    statusErrMsg := "status update failed", saveOk := true, histOk := true,
    onlineOk := true, now := 5 }

/-- Like `envA` but bcrypt compare succeeds exactly when the password equals the
stored hash (the identity `hash` makes stored hashes equal the passwords). -/
def envB : Env :=
  { envA with check := fun p h => p == h }

/-- Like `envA` but JSON parsing always yields the given message. -/
def envParsing (m : InMsg) : Env :=
  { envA with parse := fun _ => some m }

/-- One persisted message, sent by user 7. -/
def msg0 : DbMsg :=
  { id := 1, senderId := 7, content := "hi", roomId := "main", isDeleted := false }

/-- A registry holding a single unauthenticated connection, with one stored message. -/
def stUnauth : ServerState :=
  { clients := [{ id := 1, isOpen := true, sendOk := true, info := ciUnauth }],
    users := [], nextUserId := 1, msgs := [msg0], nextMsgId := 2, sessions := [] }

/-- A registry with the unauthenticated connection 1 and the authenticated open
connection 2 (bob). -/
def stJoin : ServerState :=
  { clients := [{ id := 1, isOpen := true, sendOk := true, info := ciUnauth },
                { id := 2, isOpen := true, sendOk := true, info := ciBob }],
    users := [], nextUserId := 10, msgs := [], nextMsgId := 1, sessions := [] }

/-- The stored user row behind `ciAlice`. -/
def userAlice : User :=
  { id := 7, username := "alice", passwordHash := "secret1",
    displayName := "Alice", email := none, isOnline := true }

/-- A registry with two authenticated open connections, alice (1) and bob (2). -/
def stTwoAuthed : ServerState :=
  { clients := [{ id := 1, isOpen := true, sendOk := true, info := ciAlice },
                { id := 2, isOpen := true, sendOk := true, info := ciBob }],
    users := [userAlice],
    nextUserId := 8, msgs := [], nextMsgId := 1, sessions := [] }

/-- Authenticated sender 1 plus an authenticated peer 2 whose transport is no
longer OPEN. -/
def stClosedPeer : List Conn :=
  [{ id := 1, isOpen := true, sendOk := true, info := ciAlice },
   { id := 2, isOpen := false, sendOk := true, info := ciBob }]

/-! Helper lemmas about the registry operations. -/

theorem find?_setEntry (l : List Conn) (ws : Nat) (f : ClientInfo → ClientInfo) :
    (((l.map fun c => if c.id == ws then { c with info := f c.info } else c).find?
        fun c => c.id == ws).map (·.info)) =
      ((l.find? fun c => c.id == ws).map (·.info)).map f := by
  induction l with
  | nil => rfl
  | cons c cs ih =>
    by_cases h : c.id = ws
    · simp [h]
    · simp only [List.map_cons]
      rw [if_neg (by simpa using h), List.find?_cons_of_neg _ (by simpa using h),
          List.find?_cons_of_neg _ (by simpa using h)]
      exact ih

theorem getClient_setClient (st : ServerState) (ws : Nat) (f : ClientInfo → ClientInfo) :
    getClient (setClient st ws f) ws = (getClient st ws).map f :=
  find?_setEntry st.clients ws f

theorem clients_setUserOnline (st : ServerState) (uid : Nat) (b : Bool) :
    (setUserOnline st uid b).clients = st.clients := rfl

theorem getClient_setUserOnline (st : ServerState) (uid : Nat) (b : Bool) (ws : Nat) :
    getClient (setUserOnline st uid b) ws = getClient st ws := rfl

theorem isAuthedAt_setUserOnline (st : ServerState) (uid : Nat) (b : Bool) (ws : Nat) :
    isAuthedAt (setUserOnline st uid b) ws = isAuthedAt st ws := rfl

theorem isAuthedAt_setClient_auth (st : ServerState) (ws : Nat) (ci : ClientInfo)
    (f : ClientInfo → ClientInfo) (hgc : getClient st ws = some ci)
    (hf : ∀ x, (f x).isAuthenticated = true) :
    isAuthedAt (setClient st ws f) ws = true := by
  unfold isAuthedAt
  rw [getClient_setClient, hgc]
  simp [hf]

theorem handleClose_clients_filtered (st : ServerState) (env : Env) (ws : Nat) :
    ∃ l : List Conn, (handleClose st env ws).1.clients = l.filter fun c => !(c.id == ws) :=
  ⟨_, rfl⟩

/-- C9: performing the unregister/close removal twice for the same connection id has
the same observable effect as performing it once: the second `handleClose` leaves
the state exactly as the first call left it (in particular the registry membership
is unchanged) and produces no send at all — no leave notice, no status update, and
the model is total so no error is raised. -/
theorem C9_unregister_idempotent (st : ServerState) (env : Env) (ws : Nat) :
    handleClose (handleClose st env ws).1 env ws = ((handleClose st env ws).1, []) := by
  obtain ⟨l, hl⟩ := handleClose_clients_filtered st env ws
  set st1 := (handleClose st env ws).1 with hst1
  have hgc : getClient st1 ws = none := by
    unfold getClient
    rw [hl]
    have hfn : (List.find? (fun c => c.id == ws)
        (List.filter (fun c => !(c.id == ws)) l)) = none := by
      rw [List.find?_eq_none]
      intro x hx
      simpa using (List.mem_filter.mp hx).2
    rw [hfn]
    rfl
  have hfilt : (st1.clients.filter fun c => !(c.id == ws)) = st1.clients := by
    apply List.filter_eq_self.mpr
    intro x hx
    rw [hl] at hx
    exact (List.mem_filter.mp hx).2
  show handleClose st1 env ws = (st1, [])
  unfold handleClose
  rw [hgc]
  show ({ st1 with clients := st1.clients.filter fun c => !(c.id == ws) },
        ([] : List Send)) = (st1, [])
  rw [hfilt]

/-- C7: a login attempt with a username that does not exist and one with an existing
username but a wrong password fail with the same single undifferentiated
`Invalid username or password` error, so the result never reveals whether the
username exists. -/
theorem C7_login_undifferentiated (st : ServerState) (env : Env)
    (u1 p1 u2 p2 : String) (user : User)
    (h1 : getUserByUsername st.users u1 = none)
    (hu1 : u1 ≠ "") (hp1 : p1 ≠ "")
    (h2 : getUserByUsername st.users u2 = some user)
    (hwrong : env.check p2 user.passwordHash = false)
    (hu2 : u2 ≠ "") (hp2 : p2 ≠ "") :
    loginUser st env (some u1) (some p1) = .error "Invalid username or password" ∧
    loginUser st env (some u2) (some p2) = .error "Invalid username or password" := by
  constructor <;>
    simp [loginUser, isFalsy, hu1, hp1, hu2, hp2, h1, h2, hwrong]

/-- C7 witness: a store with one user and a compare that rejects. -/
theorem C7_login_undifferentiated_witness :
    loginUser stTwoAuthed envA (some "nobody") (some "pw1234") =
      .error "Invalid username or password" ∧
    loginUser stTwoAuthed envA (some "alice") (some "wrongpw") =
      .error "Invalid username or password" :=
  C7_login_undifferentiated stTwoAuthed envA "nobody" "pw1234" "alice" "wrongpw"
    userAlice
    (by decide) (by decide) (by decide) (by decide) (by decide) (by decide) (by decide)

/-- C8 counterexample: a registry in which connection 2 is authenticated, differs
from the sender, yet receives no delivery attempt because its transport is not
OPEN — so delivery is not attempted to every authenticated non-sender connection as
the claim states. -/
theorem C8_counterexample :
    (∃ c ∈ stClosedPeer, c.id ≠ 1 ∧ c.info.isAuthenticated = true) ∧
    broadcastAttempts stClosedPeer (some 1) = [] ∧
    (broadcastToOthers stClosedPeer 1
      (OutMsg.system "x" 5 7 "alice" "Alice")).1 = [] := by
  refine ⟨⟨{ id := 2, isOpen := false, sendOk := true, info := ciBob }, ?_, ?_, ?_⟩, ?_, ?_⟩
  all_goals decide

/-- C8 (amended: only open transports are attempted): in every registry state, a
fan-out pass attempts delivery to every authenticated connection with an OPEN
transport other than the sender; a failing send to any other peer does not prevent
the delivery to this one (the registry may contain arbitrarily many failing peers);
the pass is a total function, so no exception propagates to the caller; and the
count the caller observes equals the number of successful deliveries. -/
theorem C8_bestEffort_fanout (clients : List Conn) (sender : Nat) (payload : OutMsg)
    (c : Conn) (hc : c ∈ clients) (hne : c.id ≠ sender)
    (hop : c.isOpen = true) (hau : c.info.isAuthenticated = true) :
    c ∈ broadcastAttempts clients (some sender) ∧
    (c.sendOk = true → (c.id, payload) ∈ (broadcastToOthers clients sender payload).1) ∧
    (broadcastToOthers clients sender payload).1 =
      ((broadcastAttempts clients (some sender)).filter (·.sendOk)).map
        (fun cn => (cn.id, payload)) ∧
    (broadcastToOthers clients sender payload).2 =
      ((broadcastAttempts clients (some sender)).filter (·.sendOk)).length := by
  have hmem : c ∈ broadcastAttempts clients (some sender) := by
    apply List.mem_filter.mpr
    refine ⟨hc, ?_⟩
    simp [hop, hau, Ne.symm hne]
  refine ⟨hmem, ?_, rfl, rfl⟩
  intro hsend
  exact List.mem_map.mpr ⟨c, List.mem_filter.mpr ⟨hmem, by simpa using hsend⟩, rfl⟩

/-- C8 witness: concrete two-connection registry where the peer is open and
authenticated; every conjunct of the amended statement is realized. -/
theorem C8_bestEffort_fanout_witness :
    ({ id := 2, isOpen := true, sendOk := true, info := ciBob } : Conn) ∈
      broadcastAttempts stTwoAuthed.clients (some 1) ∧
    ((2 : Nat), OutMsg.system "x" 5 7 "alice" "Alice") ∈
      (broadcastToOthers stTwoAuthed.clients 1 (OutMsg.system "x" 5 7 "alice" "Alice")).1 :=
  have h := C8_bestEffort_fanout stTwoAuthed.clients 1
    (OutMsg.system "x" 5 7 "alice" "Alice")
    { id := 2, isOpen := true, sendOk := true, info := ciBob }
    (by decide) (by decide) (by decide) (by decide)
  ⟨h.1, h.2.1 (by decide)⟩

/-- C2: a fan-out pass (`broadcastToOthers` or `broadcastToAll`) only ever delivers
to connections whose registry entry is in Authenticated state at the time of the
pass, so a connection that has not completed the Authenticated transition never
receives an event; and a `broadcast` command from an unauthenticated connection is
answered with an authentication-required error to that connection only, with no
state change and zero deliveries to every other connection. -/
theorem C2_only_authenticated_receive (clients : List Conn) (sender ws : Nat)
    (payload : OutMsg) (st : ServerState) (env : Env) (c : Option String)
    (hunauth : isAuthedAt st ws = false) :
    (∀ d ∈ (broadcastToOthers clients sender payload).1,
       ∃ cn, cn ∈ clients ∧ cn.id = d.1 ∧ cn.info.isAuthenticated = true) ∧
    (∀ d ∈ (broadcastToAll clients payload).1,
       ∃ cn, cn ∈ clients ∧ cn.id = d.1 ∧ cn.info.isAuthenticated = true) ∧
    route st env ws (InMsg.broadcast c) =
      .ok (st, [sendError ws env "Authentication required to send messages"]) := by
  refine ⟨?_, ?_, ?_⟩
  · intro d hd
    obtain ⟨cn, hcn, hEq⟩ := List.mem_map.mp hd
    have hatt := (List.mem_filter.mp hcn).1
    obtain ⟨hmem, hpred⟩ := List.mem_filter.mp hatt
    refine ⟨cn, hmem, ?_, ?_⟩
    · rw [← hEq]
    · simp only [broadcastAttempts, Bool.and_eq_true] at hpred
      exact hpred.2
  · intro d hd
    obtain ⟨cn, hcn, hEq⟩ := List.mem_map.mp hd
    have hatt := (List.mem_filter.mp hcn).1
    obtain ⟨hmem, hpred⟩ := List.mem_filter.mp hatt
    refine ⟨cn, hmem, ?_, ?_⟩
    · rw [← hEq]
    · simp only [Bool.and_eq_true] at hpred
      exact hpred.2
  · unfold isAuthedAt at hunauth
    rcases hgc : getClient st ws with _ | ci
    · simp [route, routeBroadcast, hgc]
    · rw [hgc] at hunauth
      simp only [] at hunauth
      simp [route, routeBroadcast, hgc, hunauth]

/-- C2 witness: the concrete two-connection registry and the unauthenticated
connection 1 of `stUnauth`. -/
theorem C2_only_authenticated_receive_witness :
    (∃ cn, cn ∈ stTwoAuthed.clients ∧ cn.id = 2 ∧ cn.info.isAuthenticated = true) ∧
    route stUnauth envA 1 (InMsg.broadcast (some "hello")) =
      .ok (stUnauth, [sendError 1 envA "Authentication required to send messages"]) :=
  have h := C2_only_authenticated_receive stTwoAuthed.clients 1 1
    (OutMsg.system "x" 5 7 "alice" "Alice") stUnauth envA (some "hello") (by decide)
  ⟨h.1 (2, OutMsg.system "x" 5 7 "alice" "Alice") (by decide), h.2.2⟩

/-- C1 counterexample: connection 1 of `stUnauth` is unauthenticated, yet its
`get_history` command is served — the router performs the database read and answers
with the stored message history instead of failing with an authentication-required
error, and `get_online_users` is likewise served; so the claim that every command
requiring Authenticated state fails with `AuthenticationRequired` when
unauthenticated is false for these two commands. -/
theorem C1_counterexample :
    isAuthedAt stUnauth 1 = false ∧
    route stUnauth envA 1 (InMsg.getHistory none none none) =
      .ok (stUnauth, [(1, OutMsg.messageHistory "Message history retrieved" 5
        [msg0] "main")]) ∧
    route stUnauth envA 1 InMsg.getOnlineUsers =
      .ok (stUnauth, [(1, OutMsg.onlineUsersMsg "Online users retrieved" 5 [])]) := by
  refine ⟨rfl, ?_, rfl⟩
  rfl

/-- C1 (amended: only the `broadcast`/`text` commands are authentication-gated):
while a connection is not in Authenticated state, a `broadcast` or `text` command
fails with an authentication-required error reported only to that connection and
produces no side effect (no state change, no database write, no fan-out), whereas
`get_history` and `get_online_users` are served regardless of the connection's
authentication state (the database read happens and the response goes to the acting
connection only). -/
theorem C1_auth_gating (st : ServerState) (env : Env) (ws : Nat)
    (c : Option String) (h : isAuthedAt st ws = false) :
    route st env ws (InMsg.broadcast c) =
      .ok (st, [sendError ws env "Authentication required to send messages"]) ∧
    route st env ws (InMsg.text c) =
      .ok (st, [sendError ws env "Authentication required to send messages"]) ∧
    (env.histOk = true →
      route st env ws (InMsg.getHistory none none none) =
        .ok (st, [(ws, OutMsg.messageHistory "Message history retrieved" env.now
            (getRecentMessages st "main" 50 0).reverse "main")])) ∧
    (env.onlineOk = true →
      route st env ws InMsg.getOnlineUsers =
        .ok (st, [(ws, OutMsg.onlineUsersMsg "Online users retrieved" env.now
            (getOnlineUsers st))])) := by
  have hrb : routeBroadcast st env ws c =
      .ok (st, [sendError ws env "Authentication required to send messages"]) := by
    unfold isAuthedAt at h
    rcases hgc : getClient st ws with _ | ci
    · simp [routeBroadcast, hgc]
    · rw [hgc] at h
      simp only [] at h
      simp [routeBroadcast, hgc, h]
  refine ⟨hrb, hrb, ?_, ?_⟩
  · intro hh
    simp [route, handleGetHistory, hh]
  · intro ho
    simp [route, handleGetOnlineUsers, ho]

/-- C1 witness: the unauthenticated connection of `stUnauth` with the benign
environment. -/
theorem C1_auth_gating_witness :
    route stUnauth envA 1 (InMsg.broadcast (some "hello")) =
      .ok (stUnauth, [sendError 1 envA "Authentication required to send messages"]) ∧
    route stUnauth envA 1 (InMsg.getHistory none none none) =
      .ok (stUnauth, [(1, OutMsg.messageHistory "Message history retrieved" 5
        (getRecentMessages stUnauth "main" 50 0).reverse "main")]) :=
  have h := C1_auth_gating stUnauth envA 1 (some "hello") (by decide)
  ⟨h.1, h.2.2.1 (by decide)⟩

/-- C4 counterexample: connection 1 of `stTwoAuthed` is authenticated; after
handling its `logout` command it is still in Authenticated state — `handleLogout`
never transitions the connection back to Unauthenticated. -/
theorem C4_counterexample :
    isAuthedAt stTwoAuthed 1 = true ∧
    isAuthedAt (handleLogout stTwoAuthed envA 1).1 1 = true := by
  exact ⟨rfl, rfl⟩

/-- C4 (amended: no state transition happens): for an authenticated connection,
handling `logout` calls the credential store's online-status update and then
broadcasts a leave notice to the other connections; a failing status update is only
logged, nothing is surfaced to any peer (though the leave notice is then skipped
too); and the connection's registry entry is left untouched, so it stays in
Authenticated state rather than returning to Unauthenticated. -/
theorem C4_logout_no_transition (st : ServerState) (env : Env) (ws : Nat)
    (ci : ClientInfo) (hci : getClient st ws = some ci)
    (hauth : ci.isAuthenticated = true) :
    (env.statusOk = true →
      handleLogout st env ws =
        (setUserOnline st (ci.userId.getD 0) false,
         (broadcastToOthers (setUserOnline st (ci.userId.getD 0) false).clients ws
           (OutMsg.system ((ci.displayName.getD "") ++ " has left the chat") env.now
             (ci.userId.getD 0) (ci.username.getD "") (ci.displayName.getD ""))).1)) ∧
    (env.statusOk = false → handleLogout st env ws = (st, [])) ∧
    (handleLogout st env ws).1.clients = st.clients ∧
    getClient (handleLogout st env ws).1 ws = some ci := by
  refine ⟨?_, ?_, ?_, ?_⟩
  · intro hs
    simp [handleLogout, hci, hauth, hs]
  · intro hs
    simp [handleLogout, hci, hauth, hs]
  · rcases hs : env.statusOk <;> simp [handleLogout, hci, hauth, hs, clients_setUserOnline]
  · rcases hs : env.statusOk <;>
      simp [handleLogout, hci, hauth, hs, getClient_setUserOnline, hci]

/-- C4 witness: alice's authenticated connection in `stTwoAuthed`. -/
theorem C4_logout_no_transition_witness :
    handleLogout stTwoAuthed envA 1 =
      (setUserOnline stTwoAuthed 7 false,
       (broadcastToOthers (setUserOnline stTwoAuthed 7 false).clients 1
         (OutMsg.system "Alice has left the chat" 5 7 "alice" "Alice")).1) ∧
    getClient (handleLogout stTwoAuthed envA 1).1 1 = some ciAlice :=
  have h := C4_logout_no_transition stTwoAuthed envA 1 ciAlice rfl rfl
  ⟨h.1 rfl, h.2.2.2⟩

/-- C3: for a `broadcast` command from an authenticated connection with non-empty
content, the handler first appends to the message log (the resulting state is the
appended one and the fanned-out message id is the id the append assigned), then fans
the message out to the other authenticated connections with the server-stamped
timestamp and the sender's identity, then sends a private confirmation carrying the
persisted message id to the sender only, as the last send; and when the append
fails, no fan-out occurs, no confirmation is sent, the sender receives an error and
the state is unchanged. -/
theorem C3_append_then_fanout_then_confirm (st : ServerState) (env : Env) (ws : Nat)
    (ci : ClientInfo) (s : String)
    (hci : getClient st ws = some ci) (hauth : ci.isAuthenticated = true)
    (hs : s ≠ "") :
    (env.saveOk = true →
      route st env ws (InMsg.broadcast (some s)) =
        .ok ((saveMessage st (ci.userId.getD 0) s "main").1,
             (broadcastToOthers st.clients ws
               (OutMsg.broadcastMsg s env.now st.nextMsgId (ci.userId.getD 0)
                 (ci.username.getD "") (ci.displayName.getD ""))).1
             ++ [(ws, OutMsg.confirmation "Message sent successfully!" env.now
                   st.nextMsgId)])) ∧
    (env.saveOk = false →
      route st env ws (InMsg.broadcast (some s)) =
        .ok (st, [sendError ws env "Failed to save message"])) := by
  constructor <;> intro hsave <;>
    simp [route, routeBroadcast, hci, hauth, handleBroadcastMessage, isFalsy, hs,
      hsave, saveMessage]

/-- C3 witness: alice broadcasts `hello` to bob in `stTwoAuthed`. -/
theorem C3_append_then_fanout_then_confirm_witness :
    route stTwoAuthed envA 1 (InMsg.broadcast (some "hello")) =
      .ok ((saveMessage stTwoAuthed 7 "hello" "main").1,
           [(2, OutMsg.broadcastMsg "hello" 5 1 7 "alice" "Alice"),
            (1, OutMsg.confirmation "Message sent successfully!" 5 1)]) :=
  have h := (C3_append_then_fanout_then_confirm stTwoAuthed envA 1 ciAlice "hello"
    rfl rfl (by decide)).1 rfl
  by rw [h]; rfl

/-- C6 counterexample: alice (authenticated) broadcasts the content `" "`, which is
empty after trimming surrounding whitespace; the claim says it is silently dropped
with nothing appended and no fan-out, but the code appends the untrimmed content to
the message log, fans it out to bob and confirms to alice. -/
theorem C6_counterexample :
    route stTwoAuthed envA 1 (InMsg.broadcast (some " ")) =
      .ok ({ stTwoAuthed with
              msgs := [{ id := 1, senderId := 7, content := " ", roomId := "main",
                         isDeleted := false }],
              nextMsgId := 2 },
           [(2, OutMsg.broadcastMsg " " 5 1 7 "alice" "Alice"),
            (1, OutMsg.confirmation "Message sent successfully!" 5 1)]) := by
  rfl

/-- C6 (amended): `broadcast` content is never trimmed — any non-empty content
string, even one that is entirely whitespace, is persisted and fanned out as-is;
content that is absent or the empty string makes the handler fail before any
database access (`const messageText = message.content || messageText` reads the
const inside its own initializer), and the router catches that and sends the sender
a generic processing error — so nothing is appended, no fan-out and no confirmation
happen, but the drop is not silent; the only silently dropped case is a raw inbound
frame that trims to the empty string. -/
theorem C6_empty_content_not_silent (st : ServerState) (env : Env) (ws : Nat)
    (ci : ClientInfo) (raw : String)
    (hci : getClient st ws = some ci) (hauth : ci.isAuthenticated = true) :
    (jsTrim raw = "" → handleMessage st env ws raw = (st, [])) ∧
    (jsTrim raw ≠ "" → env.parse (jsTrim raw) = some (InMsg.broadcast (some "")) →
      handleMessage st env ws raw =
        (st, [sendError ws env "Failed to process your message"])) ∧
    (∀ s : String, jsTrim raw ≠ "" → s ≠ "" → env.saveOk = true →
      env.parse (jsTrim raw) = some (InMsg.broadcast (some s)) →
      handleMessage st env ws raw =
        ((saveMessage st (ci.userId.getD 0) s "main").1,
         (broadcastToOthers st.clients ws
           (OutMsg.broadcastMsg s env.now st.nextMsgId (ci.userId.getD 0)
             (ci.username.getD "") (ci.displayName.getD ""))).1
         ++ [(ws, OutMsg.confirmation "Message sent successfully!" env.now
               st.nextMsgId)])) := by
  refine ⟨?_, ?_, ?_⟩
  · intro h0
    simp [handleMessage, h0]
  · intro hne hp
    simp [handleMessage, hne, hp, route, routeBroadcast, hci, hauth,
      handleBroadcastMessage, isFalsy]
  · intro s hne hs hsave hp
    simp [handleMessage, hne, hp, route, routeBroadcast, hci, hauth,
      handleBroadcastMessage, isFalsy, hs, hsave, saveMessage]

/-- C6 witness: the three branches at concrete inputs — an all-whitespace frame, a
parsed broadcast with empty content, and a parsed broadcast with the whitespace-only
content `" "` (empty after trimming) which is persisted and fanned out. -/
theorem C6_empty_content_not_silent_witness :
    handleMessage stTwoAuthed envA 1 "  " = (stTwoAuthed, []) ∧
    handleMessage stTwoAuthed (envParsing (InMsg.broadcast (some ""))) 1 "x" =
      (stTwoAuthed, [sendError 1 (envParsing (InMsg.broadcast (some ""))) "Failed to process your message"]) ∧
    handleMessage stTwoAuthed (envParsing (InMsg.broadcast (some " "))) 1 "x" =
      ((saveMessage stTwoAuthed 7 " " "main").1,
       [(2, OutMsg.broadcastMsg " " 5 1 7 "alice" "Alice"),
        (1, OutMsg.confirmation "Message sent successfully!" 5 1)]) :=
  have h1 := (C6_empty_content_not_silent stTwoAuthed envA 1 ciAlice "  "
    rfl rfl).1 (by decide)
  have h2 := (C6_empty_content_not_silent stTwoAuthed
    (envParsing (InMsg.broadcast (some ""))) 1 ciAlice "x" rfl rfl).2.1
    (by decide) rfl
  have h3 := (C6_empty_content_not_silent stTwoAuthed
    (envParsing (InMsg.broadcast (some " "))) 1 ciAlice "x" rfl rfl).2.2 " "
    (by decide) (by decide) rfl rfl
  ⟨h1, h2, by rw [h3]; rfl⟩

/-- C10: an inbound frame whose non-empty trimmed text fails to parse as JSON is
wrapped as a `text` command carrying the trimmed raw text, not reported as an
unknown command type: an authenticated sender has the raw text persisted and fanned
out as message content, while an unauthenticated sender receives only an
authentication-required error. -/
theorem C10_plain_text_fallback (st : ServerState) (env : Env) (ws : Nat)
    (raw : String) (hne : jsTrim raw ≠ "") (hparse : env.parse (jsTrim raw) = none) :
    (∀ ci, getClient st ws = some ci → ci.isAuthenticated = true →
      env.saveOk = true →
      handleMessage st env ws raw =
        ((saveMessage st (ci.userId.getD 0) (jsTrim raw) "main").1,
         (broadcastToOthers st.clients ws
           (OutMsg.broadcastMsg (jsTrim raw) env.now st.nextMsgId (ci.userId.getD 0)
             (ci.username.getD "") (ci.displayName.getD ""))).1
         ++ [(ws, OutMsg.confirmation "Message sent successfully!" env.now
               st.nextMsgId)])) ∧
    (isAuthedAt st ws = false →
      handleMessage st env ws raw =
        (st, [sendError ws env "Authentication required to send messages"])) := by
  constructor
  · intro ci hci hauth hsave
    have hfals : isFalsy (some (jsTrim raw)) = false := by
      simpa [isFalsy] using hne
    simp [handleMessage, hne, hparse, route, routeBroadcast, hci, hauth,
      handleBroadcastMessage, hfals, hsave, saveMessage]
  · intro hun
    unfold isAuthedAt at hun
    rcases hgc : getClient st ws with _ | ci
    · simp [handleMessage, hne, hparse, route, routeBroadcast, hgc]
    · rw [hgc] at hun
      simp only [] at hun
      simp [handleMessage, hne, hparse, route, routeBroadcast, hgc, hun]

/-- C10 witness: the plain-text frame `hi there` from authenticated alice in
`stTwoAuthed` and from the unauthenticated connection of `stUnauth`. -/
theorem C10_plain_text_fallback_witness :
    handleMessage stTwoAuthed envA 1 "hi there" =
      ((saveMessage stTwoAuthed 7 "hi there" "main").1,
       [(2, OutMsg.broadcastMsg "hi there" 5 1 7 "alice" "Alice"),
        (1, OutMsg.confirmation "Message sent successfully!" 5 1)]) ∧
    handleMessage stUnauth envA 1 "hi there" =
      (stUnauth, [sendError 1 envA "Authentication required to send messages"]) :=
  have h1 := (C10_plain_text_fallback stTwoAuthed envA 1 "hi there"
    (by decide) rfl).1 ciAlice rfl rfl rfl
  have h2 := (C10_plain_text_fallback stUnauth envA 1 "hi there"
    (by decide) rfl).2 rfl
  ⟨by rw [h1]; rfl, h2⟩

/-- C5 counterexample: after connection 1 of `stJoin` registers successfully it is
itself an authenticated open connection, so a join notice sent "via broadcastToAll"
would be delivered to it as well; but the code's join notice never reaches
connection 1 — it is fanned out with `broadcastToOthers`, so the claim that the
join notice is broadcast via `broadcastToAll` is false at this input. -/
theorem C5_counterexample :
    ((1 : Nat), OutMsg.system "alice has joined the chat" 5 10 "alice" "alice") ∉
      (handleRegistration stJoin envA 1 (some "alice") (some "secret1") none none).2 ∧
    ((1 : Nat), OutMsg.system "alice has joined the chat" 5 10 "alice" "alice") ∈
      (broadcastToAll
        (handleRegistration stJoin envA 1 (some "alice") (some "secret1") none none).1.clients
        (OutMsg.system "alice has joined the chat" 5 10 "alice" "alice")).1 := by
  decide

/-- C5 (amended: the join notice is fanned out via `broadcastToOthers`, so it goes
to every other authenticated open connection and never to the acting connection):
a successful `register` or `login` marks the connection Authenticated, answers with
an `auth_success` response carrying the token minted by the token service, sends
the most-recent 20 messages reversed to oldest-first order to the acting connection
only, and then fans a join notice out to the others. -/
theorem C5_register_login_success (st : ServerState) (env : Env) (ws : Nat)
    (ci : ClientInfo) (hci : getClient st ws = some ci)
    (hst : env.statusOk = true) (hh : env.histOk = true) :
    (∀ uname pw : String, getUserByUsername st.users uname = none →
      3 ≤ uname.length → 6 ≤ pw.length →
      (handleRegistration st env ws (some uname) (some pw) none none).2 =
        (ws, OutMsg.authSuccess "Registration successful" env.now st.nextUserId
           uname uname (env.sign st.nextUserId uname)) ::
        (ws, OutMsg.messageHistory "Recent messages" env.now
           (getRecentMessages
             (handleRegistration st env ws (some uname) (some pw) none none).1
             "main" 20 0).reverse "main") ::
        (broadcastToOthers
           (handleRegistration st env ws (some uname) (some pw) none none).1.clients
           ws (OutMsg.system (uname ++ " has joined the chat") env.now st.nextUserId
                uname uname)).1 ∧
      isAuthedAt (handleRegistration st env ws (some uname) (some pw) none none).1
        ws = true) ∧
    (∀ uname pw : String, ∀ user : User,
      getUserByUsername st.users uname = some user →
      env.check pw user.passwordHash = true → uname ≠ "" → pw ≠ "" →
      (handleLogin st env ws (some uname) (some pw)).2 =
        (ws, OutMsg.authSuccess "Login successful" env.now user.id user.username
           user.displayName (env.sign user.id user.username)) ::
        (ws, OutMsg.messageHistory "Recent messages" env.now
           (getRecentMessages (handleLogin st env ws (some uname) (some pw)).1
             "main" 20 0).reverse "main") ::
        (broadcastToOthers (handleLogin st env ws (some uname) (some pw)).1.clients
           ws (OutMsg.system (user.displayName ++ " has joined the chat") env.now
                user.id user.username user.displayName)).1 ∧
      isAuthedAt (handleLogin st env ws (some uname) (some pw)).1 ws = true) := by
  constructor
  · intro uname pw hfresh hul hpl
    have hu0 : uname ≠ "" := by intro h; rw [h] at hul; simp at hul
    have hp0 : pw ≠ "" := by intro h; rw [h] at hpl; simp at hpl
    have hbu : (uname == "") = false := beq_eq_false_iff_ne.mpr hu0
    have hbp : (pw == "") = false := beq_eq_false_iff_ne.mpr hp0
    have hlt3 : ¬ uname.length < 3 := Nat.not_lt.mpr hul
    have hlt6 : ¬ pw.length < 6 := Nat.not_lt.mpr hpl
    constructor
    · simp [handleRegistration, registerUser, isFalsy, hbu, hbp, hlt3, hlt6,
        hfresh, hst, sendMessageHistory, hh]
    · simp [handleRegistration, registerUser, isFalsy, hbu, hbp, hlt3, hlt6,
        hfresh, hst, isAuthedAt_setUserOnline]
      refine isAuthedAt_setClient_auth _ ws ci _ ?_ ?_
      · exact hci
      · intro x
        rfl
  · intro uname pw user hfind hcheck hu0 hp0
    have hbu : (uname == "") = false := beq_eq_false_iff_ne.mpr hu0
    have hbp : (pw == "") = false := beq_eq_false_iff_ne.mpr hp0
    constructor
    · simp [handleLogin, loginUser, isFalsy, hbu, hbp, hfind, hcheck, hst,
        sendMessageHistory, hh]
    · simp [handleLogin, loginUser, isFalsy, hbu, hbp, hfind, hcheck, hst,
        isAuthedAt_setUserOnline]
      refine isAuthedAt_setClient_auth _ ws ci _ ?_ ?_
      · exact hci
      · intro x
        rfl

/-- C5 witness: carol registers on `stJoin`; alice logs in on `stTwoAuthed` with the
password-accepting environment `envB`. -/
theorem C5_register_login_success_witness :
    (handleRegistration stJoin envA 1 (some "carol") (some "secret1") none none).2 =
      [(1, OutMsg.authSuccess "Registration successful" 5 10 "carol" "carol"
          "carol-token"),
       (1, OutMsg.messageHistory "Recent messages" 5 [] "main"),
       (2, OutMsg.system "carol has joined the chat" 5 10 "carol" "carol")] ∧
    isAuthedAt (handleRegistration stJoin envA 1 (some "carol") (some "secret1")
      none none).1 1 = true ∧
    (handleLogin stTwoAuthed envB 1 (some "alice") (some "secret1")).2 =
      [(1, OutMsg.authSuccess "Login successful" 5 7 "alice" "Alice" "alice-token"),
       (1, OutMsg.messageHistory "Recent messages" 5 [] "main"),
       (2, OutMsg.system "Alice has joined the chat" 5 7 "alice" "Alice")] ∧
    isAuthedAt (handleLogin stTwoAuthed envB 1 (some "alice") (some "secret1")).1
      1 = true :=
  have hr := (C5_register_login_success stJoin envA 1 ciUnauth rfl rfl rfl).1
    "carol" "secret1" (by decide) (by decide) (by decide)
  have hl := (C5_register_login_success stTwoAuthed envB 1 ciAlice rfl rfl rfl).2
    "alice" "secret1" userAlice (by decide) (by decide) (by decide) (by decide)
  ⟨by rw [hr.1]; rfl, hr.2, by rw [hl.1]; rfl, hl.2⟩

end BroadcastServer
